import Mathlib

/-!
Verification of the cluster-join retry controller (`retryJoin` / `retryJoinWan`
in the agent package).  The Go code is shallowly embedded: each observable
action of the loop (log line, join call, channel send, sleep) is recorded as an
`Event`, the external collaborators (`discover.Addrs`, `Agent.JoinLAN`,
`Agent.JoinWAN`) are supplied as environment functions indexed by the loop
iteration, and the unbounded `for` loop is run on explicit fuel.
-/

namespace Consul

/-- Character-list matching at the front: `leadingMatch p s` is true when `p`
occurs at the start of `s`. -/
def leadingMatch : List Char → List Char → Bool
  | [], _ => true
  | _ :: _, [] => false
  | p :: ps, c :: cs => p == c && leadingMatch ps cs

/-- Predicate `hasSubstring pat s` is true when `pat` occurs contiguously inside `s`. -/
def hasSubstring (pat : List Char) : List Char → Bool
  | [] => pat.isEmpty
  | c :: cs => leadingMatch pat (c :: cs) || hasSubstring pat cs

/-- Models Go `strings.Contains s sub`. -/
def goStringContains (s sub : String) : Bool :=
  hasSubstring sub.data s.data

/-- The agent configuration fields consumed by the two retry controllers.
Durations are abstract ticks. -/
structure Config where
  RetryJoin : List String
  RetryInterval : Nat
  RetryMaxAttempts : Nat
  RetryJoinWan : List String
  RetryIntervalWan : Nat
  RetryMaxAttemptsWan : Nat

/-- One observable action of a retry controller.  Each constructor corresponds
to one call site in the Go source (`a.logger.Printf`, `a.JoinLAN`, `a.JoinWAN`,
`a.retryJoinCh <- …`, `time.Sleep`). -/
inductive Event where
  /-- Log line `[INFO] agent: Joining cluster...`. -/
  | logInfoJoining
  /-- Log line `[INFO] agent: Joining WAN cluster...`. -/
  | logInfoJoiningWan
  /-- Log line `[ERR] agent: %s` with the discovery resolution error. -/
  | logErrDiscoveryFailed (msg : String)
  /-- Log line `[ERR] agent: Discovered servers: %v`. -/
  | logErrDiscovered (servers : List String)
  /-- the call `a.JoinLAN(servers)` with its argument. -/
  | joinLANCall (servers : List String)
  /-- the call `a.JoinWAN(...)` with its argument. -/
  | joinWANCall (servers : List String)
  /-- Log line `[INFO] agent: Join completed. Synced with %d initial agents`. -/
  | logInfoJoinCompleted (n : Nat)
  /-- Log line `[INFO] agent: Join -wan completed. Synced with %d initial agents`. -/
  | logInfoJoinWanCompleted (n : Nat)
  /-- Send `a.retryJoinCh <- fmt.Errorf(msg)`: the terminal error hand-off. -/
  | sinkSend (msg : String)
  /-- Log line `[WARN] agent: Join failed: %v, retrying in %v`.  The first argument is
  the Go `err` variable in scope at the log statement (`none` models a nil
  error). -/
  | logWarnJoinFailed (e : Option String) (interval : Nat)
  /-- Log line `[WARN] agent: Join -wan failed: %v, retrying in %v`. -/
  | logWarnJoinWanFailed (e : String) (interval : Nat)
  /-- Call `time.Sleep(interval)`. -/
  | sleep (interval : Nat)
deriving DecidableEq

/-- How one loop iteration ends: `success` models the `return` after a
completed join, `exhausted` the `return` after the terminal-error send, and
`retry a` the fall-through to the next iteration with updated attempt
counter `a`. -/
inductive StepResult where
  | success (n : Nat)
  | exhausted
  | retry (attempt : Nat)
deriving DecidableEq

/-- How a whole controller run ends.  `notConfigured` is the early `return`
on an empty join spec; `outOfFuel` means the observation window (fuel) ended
while the loop was still running. -/
inductive Outcome where
  | success (n : Nat)
  | exhausted
  | notConfigured
  | outOfFuel
deriving DecidableEq

/-- External collaborators of the LAN controller, indexed by loop iteration:
`discover iter` is the result of `discover.Addrs(disco, logger)` in iteration
`iter` (`Except.error` models a non-nil Go error, with a nil address slice),
and `joinLAN iter servers` the result of `a.JoinLAN(servers)` there. -/
structure LanEnv where
  discover : Nat → Except String (List String)
  joinLAN : Nat → List String → Except String Nat

/-- External collaborator of the WAN controller: `joinWAN iter servers` is the
result of `a.JoinWAN(servers)` in iteration `iter`. -/
structure WanEnv where
  joinWAN : Nat → List String → Except String Nat

/-- The loop in `retryJoin` that splits the configured `RetryJoin` entries
into plain addresses and the (last-seen) go-discover statement:

    for _, addr := range cfg.RetryJoin {
      if strings.Contains(addr, "provider=") { disco = addr; continue }
      addrs = append(addrs, addr)
    }
-/
def splitRetryJoin (spec : List String) : List String × String :=
  spec.foldl
    (fun acc addr =>
      if goStringContains addr "provider=" then (acc.1, addr)
      else (acc.1 ++ [addr], acc.2))
    ([], "")

/-- The tail of a failed iteration, shared by both branches of `retryJoin`:

    attempt++
    if cfg.RetryMaxAttempts > 0 && attempt > cfg.RetryMaxAttempts {
      a.retryJoinCh <- fmt.Errorf("agent: max join retry exhausted, exiting")
      return
    }
    a.logger.Printf("[WARN] agent: Join failed: %v, retrying in %v", err, cfg.RetryInterval)
    time.Sleep(cfg.RetryInterval)

`err` is the outer `err` variable of the iteration (the inner `err` of
`n, err := a.JoinLAN(servers)` is shadowed and never reaches this point). -/
def lanAfterFailure (cfg : Config) (attempt : Nat) (err : Option String)
    (evs : List Event) : List Event × StepResult :=
  let attempt := attempt + 1
  if cfg.RetryMaxAttempts > 0 ∧ attempt > cfg.RetryMaxAttempts then
    (evs ++ [Event.sinkSend "agent: max join retry exhausted, exiting"],
      StepResult.exhausted)
  else
    (evs ++ [Event.logWarnJoinFailed err cfg.RetryInterval,
        Event.sleep cfg.RetryInterval],
      StepResult.retry attempt)

/-- One iteration of the `for` loop in `retryJoin`.  `discoRes` and `joinRes`
are the answers of the environment for this iteration; `addrs` and `disco` the
output of `splitRetryJoin`; `attempt` the counter value entering the
iteration. -/
def retryJoinStep (cfg : Config) (discoRes : Except String (List String))
    (joinRes : List String → Except String Nat)
    (addrs : List String) (disco : String) (attempt : Nat) :
    List Event × StepResult :=
  let discoPhase : List String × Option String × List Event :=
    if disco = "" then ([], none, [])
    else
      match discoRes with
      | Except.ok srvs => (srvs, none, [Event.logErrDiscovered srvs])
      | Except.error e =>
        ([], some e, [Event.logErrDiscoveryFailed e, Event.logErrDiscovered []])
  let servers := discoPhase.1 ++ addrs
  let err := discoPhase.2.1
  let evs := discoPhase.2.2
  if servers = [] then
    lanAfterFailure cfg attempt (some "No servers to join") evs
  else
    match joinRes servers with
    | Except.ok n =>
      (evs ++ [Event.joinLANCall servers, Event.logInfoJoinCompleted n],
        StepResult.success n)
    | Except.error _ =>
      lanAfterFailure cfg attempt err (evs ++ [Event.joinLANCall servers])

/-- The `for` loop of `retryJoin`, run on explicit fuel (number of iterations
still observed). -/
def retryJoinLoop (cfg : Config) (env : LanEnv) (addrs : List String)
    (disco : String) : Nat → Nat → Nat → List Event × Outcome
  | _, _, 0 => ([], Outcome.outOfFuel)
  | attempt, iter, fuel + 1 =>
    match retryJoinStep cfg (env.discover iter) (env.joinLAN iter) addrs disco attempt with
    | (evs, StepResult.success n) => (evs, Outcome.success n)
    | (evs, StepResult.exhausted) => (evs, Outcome.exhausted)
    | (evs, StepResult.retry a) =>
      let r := retryJoinLoop cfg env addrs disco a (iter + 1) fuel
      (evs ++ r.1, r.2)

/-- The LAN retry controller `Agent.retryJoin`. -/
def retryJoin (cfg : Config) (env : LanEnv) (fuel : Nat) : List Event × Outcome :=
  if cfg.RetryJoin.length = 0 then ([], Outcome.notConfigured)
  else
    let p := splitRetryJoin cfg.RetryJoin
    let r := retryJoinLoop cfg env p.1 p.2 0 0 fuel
    (Event.logInfoJoining :: r.1, r.2)

/-- One iteration of the `for` loop in `retryJoinWan`.  The WAN loop performs
no address splitting and no discovery: it passes `cfg.RetryJoinWan` to
`a.JoinWAN` verbatim. -/
def retryJoinWanStep (cfg : Config) (joinRes : List String → Except String Nat)
    (attempt : Nat) : List Event × StepResult :=
  match joinRes cfg.RetryJoinWan with
  | Except.ok n =>
    ([Event.joinWANCall cfg.RetryJoinWan, Event.logInfoJoinWanCompleted n],
      StepResult.success n)
  | Except.error e =>
    let attempt := attempt + 1
    if cfg.RetryMaxAttemptsWan > 0 ∧ attempt > cfg.RetryMaxAttemptsWan then
      ([Event.joinWANCall cfg.RetryJoinWan,
          Event.sinkSend "agent: max join -wan retry exhausted, exiting"],
        StepResult.exhausted)
    else
      ([Event.joinWANCall cfg.RetryJoinWan,
          Event.logWarnJoinWanFailed e cfg.RetryIntervalWan,
          Event.sleep cfg.RetryIntervalWan],
        StepResult.retry attempt)

/-- The `for` loop of `retryJoinWan`, run on explicit fuel. -/
def retryJoinWanLoop (cfg : Config) (env : WanEnv) :
    Nat → Nat → Nat → List Event × Outcome
  | _, _, 0 => ([], Outcome.outOfFuel)
  | attempt, iter, fuel + 1 =>
    match retryJoinWanStep cfg (env.joinWAN iter) attempt with
    | (evs, StepResult.success n) => (evs, Outcome.success n)
    | (evs, StepResult.exhausted) => (evs, Outcome.exhausted)
    | (evs, StepResult.retry a) =>
      let r := retryJoinWanLoop cfg env a (iter + 1) fuel
      (evs ++ r.1, r.2)

/-- The WAN retry controller `Agent.retryJoinWan`. -/
def retryJoinWan (cfg : Config) (env : WanEnv) (fuel : Nat) :
    List Event × Outcome :=
  if cfg.RetryJoinWan.length = 0 then ([], Outcome.notConfigured)
  else
    let r := retryJoinWanLoop cfg env 0 0 fuel
    (Event.logInfoJoiningWan :: r.1, r.2)

/-- A step result that is not a completed join: the iteration counted as a
failure (join error or empty candidate list). -/
def StepResult.isFailure : StepResult → Bool
  | StepResult.success _ => false
  | _ => true

/-- The candidate list a LAN iteration offers to `a.JoinLAN`: the discovery
contribution (empty when no discovery statement is configured or resolution
failed) followed by the static addresses. -/
def lanCandidates (discoRes : Except String (List String))
    (addrs : List String) (disco : String) : List String :=
  (if disco = "" then []
   else match discoRes with
     | Except.ok l => l
     | Except.error _ => []) ++ addrs

/-- Number of `a.JoinLAN` calls recorded in an event trace. -/
def countLanJoinCalls (evs : List Event) : Nat :=
  (evs.filter fun e => match e with
    | Event.joinLANCall _ => true
    | _ => false).length

/-- Number of `a.JoinWAN` calls recorded in an event trace. -/
def countWanJoinCalls (evs : List Event) : Nat :=
  (evs.filter fun e => match e with
    | Event.joinWANCall _ => true
    | _ => false).length

/-- Number of terminal-error deliveries (`retryJoinCh` sends) in a trace. -/
def countSinkSends (evs : List Event) : Nat :=
  (evs.filter fun e => match e with
    | Event.sinkSend _ => true
    | _ => false).length

/-- Number of `time.Sleep` calls in a trace. -/
def countSleeps (evs : List Event) : Nat :=
  (evs.filter fun e => match e with
    | Event.sleep _ => true
    | _ => false).length

/-! ### Counting helpers -/

lemma countSinkSends_append (a b : List Event) :
    countSinkSends (a ++ b) = countSinkSends a + countSinkSends b := by
  simp [countSinkSends, List.filter_append]

lemma countLanJoinCalls_append (a b : List Event) :
    countLanJoinCalls (a ++ b) = countLanJoinCalls a + countLanJoinCalls b := by
  simp [countLanJoinCalls, List.filter_append]

lemma countWanJoinCalls_append (a b : List Event) :
    countWanJoinCalls (a ++ b) = countWanJoinCalls a + countWanJoinCalls b := by
  simp [countWanJoinCalls, List.filter_append]

lemma countSleeps_append (a b : List Event) :
    countSleeps (a ++ b) = countSleeps a + countSleeps b := by
  simp [countSleeps, List.filter_append]

/-! ### Behaviour of a single LAN iteration -/

lemma step_sink_count (cfg : Config) (d : Except String (List String))
    (j : List String → Except String Nat) (addrs : List String)
    (disco : String) (att : Nat) :
    countSinkSends (retryJoinStep cfg d j addrs disco att).1 =
      if (retryJoinStep cfg d j addrs disco att).2 = StepResult.exhausted
      then 1 else 0 := by
  unfold retryJoinStep lanAfterFailure
  rcases d with l | e <;> by_cases hd : disco = "" <;> simp [hd, countSinkSends]
  all_goals try split
  all_goals try split
  all_goals try split
  all_goals simp_all [countSinkSends]

lemma step_exhausted_cond (cfg : Config) (d : Except String (List String))
    (j : List String → Except String Nat) (addrs : List String)
    (disco : String) (att : Nat)
    (h : (retryJoinStep cfg d j addrs disco att).2 = StepResult.exhausted) :
    0 < cfg.RetryMaxAttempts ∧ cfg.RetryMaxAttempts < att + 1 := by
  unfold retryJoinStep lanAfterFailure at h
  revert h
  rcases d with l | e <;> by_cases hd : disco = "" <;> simp [hd]
  all_goals try split
  all_goals try split
  all_goals try split
  all_goals simp_all

lemma step_success_join (cfg : Config) (d : Except String (List String))
    (j : List String → Except String Nat) (addrs : List String)
    (disco : String) (att n : Nat)
    (h : (retryJoinStep cfg d j addrs disco att).2 = StepResult.success n) :
    j (lanCandidates d addrs disco) = Except.ok n := by
  unfold retryJoinStep lanAfterFailure at h
  unfold lanCandidates
  revert h
  rcases d with l | e <;> by_cases hd : disco = "" <;> simp [hd]
  all_goals try split
  all_goals try split
  all_goals try split
  all_goals simp_all

lemma step_isFailure_of_error (cfg : Config) (d : Except String (List String))
    (j : List String → Except String Nat) (addrs : List String)
    (disco : String) (att : Nat)
    (hj : ∀ s, ∃ e, j s = Except.error e) :
    (retryJoinStep cfg d j addrs disco att).2.isFailure = true := by
  cases hres : (retryJoinStep cfg d j addrs disco att).2 with
  | success n =>
    rcases hj (lanCandidates d addrs disco) with ⟨e0, he0⟩
    have := step_success_join cfg d j addrs disco att n hres
    rw [this] at he0
    exact absurd he0 (by simp)
  | exhausted => rfl
  | retry a => rfl

lemma step_failure_cases (cfg : Config) (d : Except String (List String))
    (j : List String → Except String Nat) (addrs : List String)
    (disco : String) (att : Nat)
    (h : (retryJoinStep cfg d j addrs disco att).2.isFailure = true) :
    (0 < cfg.RetryMaxAttempts ∧ cfg.RetryMaxAttempts < att + 1 →
      (retryJoinStep cfg d j addrs disco att).2 = StepResult.exhausted) ∧
    (¬(0 < cfg.RetryMaxAttempts ∧ cfg.RetryMaxAttempts < att + 1) →
      (retryJoinStep cfg d j addrs disco att).2 = StepResult.retry (att + 1)) := by
  unfold retryJoinStep lanAfterFailure at h ⊢
  revert h
  rcases d with l | e <;> by_cases hd : disco = "" <;> simp [hd]
  all_goals try split
  all_goals try split
  all_goals try split
  all_goals simp_all [StepResult.isFailure]

lemma step_retry_sleep (cfg : Config) (d : Except String (List String))
    (j : List String → Except String Nat) (addrs : List String)
    (disco : String) (att a : Nat)
    (h : (retryJoinStep cfg d j addrs disco att).2 = StepResult.retry a) :
    a = att + 1 ∧
    Event.sleep cfg.RetryInterval ∈ (retryJoinStep cfg d j addrs disco att).1 := by
  unfold retryJoinStep lanAfterFailure at h ⊢
  revert h
  rcases d with l | e <;> by_cases hd : disco = "" <;> simp [hd]
  all_goals try split
  all_goals try split
  all_goals try split
  all_goals simp_all

lemma step_join_calls (cfg : Config) (d : Except String (List String))
    (j : List String → Except String Nat) (addrs : List String)
    (disco : String) (att : Nat) :
    (∀ l, Event.joinLANCall l ∈ (retryJoinStep cfg d j addrs disco att).1 →
      l = lanCandidates d addrs disco) ∧
    (lanCandidates d addrs disco ≠ [] →
      Event.joinLANCall (lanCandidates d addrs disco) ∈
        (retryJoinStep cfg d j addrs disco att).1) ∧
    countLanJoinCalls (retryJoinStep cfg d j addrs disco att).1 =
      (if lanCandidates d addrs disco = [] then 0 else 1) := by
  unfold retryJoinStep lanAfterFailure lanCandidates
  rcases d with l | e <;> by_cases hd : disco = "" <;>
    simp [hd, countLanJoinCalls]
  all_goals try split
  all_goals try split
  all_goals try split
  all_goals simp_all [countLanJoinCalls]

lemma step_success_shape (cfg : Config) (d : Except String (List String))
    (j : List String → Except String Nat) (addrs : List String)
    (disco : String) (att n : Nat)
    (h : (retryJoinStep cfg d j addrs disco att).2 = StepResult.success n) :
    ∃ pre srv, (retryJoinStep cfg d j addrs disco att).1 =
      pre ++ [Event.joinLANCall srv, Event.logInfoJoinCompleted n] := by
  unfold retryJoinStep lanAfterFailure at h ⊢
  revert h
  rcases d with l | e <;> by_cases hd : disco = "" <;> simp [hd]
  all_goals try split
  all_goals try split
  all_goals try split
  all_goals simp_all
  all_goals try intro hn
  all_goals try subst hn
  all_goals first
    | exact ⟨[], _, rfl⟩
    | exact ⟨[_], _, rfl⟩
    | exact ⟨[_, _], _, rfl⟩

lemma step_exhausted_shape (cfg : Config) (d : Except String (List String))
    (j : List String → Except String Nat) (addrs : List String)
    (disco : String) (att : Nat)
    (h : (retryJoinStep cfg d j addrs disco att).2 = StepResult.exhausted) :
    ∃ pre, (retryJoinStep cfg d j addrs disco att).1 =
      pre ++ [Event.sinkSend "agent: max join retry exhausted, exiting"] := by
  unfold retryJoinStep lanAfterFailure at h ⊢
  revert h
  rcases d with l | e <;> by_cases hd : disco = "" <;> simp [hd]
  all_goals try split
  all_goals try split
  all_goals try split
  all_goals simp_all
  all_goals first
    | exact ⟨[], rfl⟩
    | exact ⟨[_], rfl⟩
    | exact ⟨[_, _], rfl⟩
    | exact ⟨[_, _, _], rfl⟩


/-! ### Behaviour of a single WAN iteration -/

lemma wanStep_sink_count (cfg : Config)
    (j : List String → Except String Nat) (att : Nat) :
    countSinkSends (retryJoinWanStep cfg j att).1 =
      if (retryJoinWanStep cfg j att).2 = StepResult.exhausted
      then 1 else 0 := by
  unfold retryJoinWanStep
  by_cases hc : 0 < cfg.RetryMaxAttemptsWan ∧ cfg.RetryMaxAttemptsWan < att + 1 <;>
    split <;> simp [hc, countSinkSends]

lemma wanStep_exhausted_cond (cfg : Config)
    (j : List String → Except String Nat) (att : Nat)
    (h : (retryJoinWanStep cfg j att).2 = StepResult.exhausted) :
    0 < cfg.RetryMaxAttemptsWan ∧ cfg.RetryMaxAttemptsWan < att + 1 := by
  unfold retryJoinWanStep at h
  revert h
  by_cases hc : 0 < cfg.RetryMaxAttemptsWan ∧ cfg.RetryMaxAttemptsWan < att + 1 <;>
    split <;> simp [hc]

lemma wanStep_success_join (cfg : Config)
    (j : List String → Except String Nat) (att n : Nat)
    (h : (retryJoinWanStep cfg j att).2 = StepResult.success n) :
    j cfg.RetryJoinWan = Except.ok n := by
  unfold retryJoinWanStep at h
  revert h
  by_cases hc : 0 < cfg.RetryMaxAttemptsWan ∧ cfg.RetryMaxAttemptsWan < att + 1 <;>
    split <;> simp [hc, *]

lemma wanStep_isFailure_of_error (cfg : Config)
    (j : List String → Except String Nat) (att : Nat)
    (hj : ∀ s, ∃ e, j s = Except.error e) :
    (retryJoinWanStep cfg j att).2.isFailure = true := by
  cases hres : (retryJoinWanStep cfg j att).2 with
  | success n =>
    rcases hj cfg.RetryJoinWan with ⟨e0, he0⟩
    have := wanStep_success_join cfg j att n hres
    rw [this] at he0
    exact absurd he0 (by simp)
  | exhausted => rfl
  | retry a => rfl

lemma wanStep_failure_cases (cfg : Config)
    (j : List String → Except String Nat) (att : Nat)
    (h : (retryJoinWanStep cfg j att).2.isFailure = true) :
    (0 < cfg.RetryMaxAttemptsWan ∧ cfg.RetryMaxAttemptsWan < att + 1 →
      (retryJoinWanStep cfg j att).2 = StepResult.exhausted) ∧
    (¬(0 < cfg.RetryMaxAttemptsWan ∧ cfg.RetryMaxAttemptsWan < att + 1) →
      (retryJoinWanStep cfg j att).2 = StepResult.retry (att + 1)) := by
  unfold retryJoinWanStep at h ⊢
  revert h
  by_cases hc : 0 < cfg.RetryMaxAttemptsWan ∧ cfg.RetryMaxAttemptsWan < att + 1 <;>
    split <;> simp [hc, StepResult.isFailure]

lemma wanStep_retry_sleep (cfg : Config)
    (j : List String → Except String Nat) (att a : Nat)
    (h : (retryJoinWanStep cfg j att).2 = StepResult.retry a) :
    a = att + 1 ∧
    Event.sleep cfg.RetryIntervalWan ∈ (retryJoinWanStep cfg j att).1 := by
  unfold retryJoinWanStep at h ⊢
  revert h
  by_cases hc : 0 < cfg.RetryMaxAttemptsWan ∧ cfg.RetryMaxAttemptsWan < att + 1 <;>
    split <;> simp [hc]
  all_goals rintro rfl
  all_goals simp

lemma wanStep_join_calls (cfg : Config)
    (j : List String → Except String Nat) (att : Nat) :
    (∀ l, Event.joinWANCall l ∈ (retryJoinWanStep cfg j att).1 →
      l = cfg.RetryJoinWan) ∧
    Event.joinWANCall cfg.RetryJoinWan ∈ (retryJoinWanStep cfg j att).1 ∧
    countWanJoinCalls (retryJoinWanStep cfg j att).1 = 1 := by
  unfold retryJoinWanStep
  by_cases hc : 0 < cfg.RetryMaxAttemptsWan ∧ cfg.RetryMaxAttemptsWan < att + 1 <;>
    split <;> simp [hc, countWanJoinCalls]

lemma wanStep_success_shape (cfg : Config)
    (j : List String → Except String Nat) (att n : Nat)
    (h : (retryJoinWanStep cfg j att).2 = StepResult.success n) :
    ∃ pre srv, (retryJoinWanStep cfg j att).1 =
      pre ++ [Event.joinWANCall srv, Event.logInfoJoinWanCompleted n] := by
  unfold retryJoinWanStep at h ⊢
  revert h
  by_cases hc : 0 < cfg.RetryMaxAttemptsWan ∧ cfg.RetryMaxAttemptsWan < att + 1 <;>
    split <;> simp [hc]
  all_goals rintro rfl
  all_goals exact ⟨[], _, rfl⟩

lemma wanStep_exhausted_shape (cfg : Config)
    (j : List String → Except String Nat) (att : Nat)
    (h : (retryJoinWanStep cfg j att).2 = StepResult.exhausted) :
    ∃ pre, (retryJoinWanStep cfg j att).1 =
      pre ++ [Event.sinkSend "agent: max join -wan retry exhausted, exiting"] := by
  unfold retryJoinWanStep at h ⊢
  revert h
  by_cases hc : 0 < cfg.RetryMaxAttemptsWan ∧ cfg.RetryMaxAttemptsWan < att + 1 <;>
    split <;> simp [hc]
  all_goals exact ⟨[_], rfl⟩

/-! ### Whole-run invariants of the LAN loop -/

lemma lanLoop_sink_outcome (cfg : Config) (env : LanEnv) (addrs : List String)
    (disco : String) :
    ∀ fuel att iter,
      countSinkSends (retryJoinLoop cfg env addrs disco att iter fuel).1 =
        if (retryJoinLoop cfg env addrs disco att iter fuel).2 = Outcome.exhausted
        then 1 else 0 := by
  intro fuel
  induction fuel with
  | zero => intro att iter; simp [retryJoinLoop, countSinkSends]
  | succ fuel ih =>
    intro att iter
    have hs := step_sink_count cfg (env.discover iter) (env.joinLAN iter) addrs disco att
    rcases hstep : retryJoinStep cfg (env.discover iter) (env.joinLAN iter) addrs disco att
      with ⟨evs, sr⟩
    rw [hstep] at hs
    cases sr with
    | success n =>
      simp at hs
      simp [retryJoinLoop, hstep, hs]
    | exhausted =>
      simp at hs
      simp [retryJoinLoop, hstep, hs]
    | retry a =>
      simp at hs
      simp [retryJoinLoop, hstep, countSinkSends_append, hs, ih a (iter + 1)]

lemma lanLoop_success_shape (cfg : Config) (env : LanEnv) (addrs : List String)
    (disco : String) :
    ∀ fuel att iter n,
      (retryJoinLoop cfg env addrs disco att iter fuel).2 = Outcome.success n →
      ∃ pre srv, (retryJoinLoop cfg env addrs disco att iter fuel).1 =
        pre ++ [Event.joinLANCall srv, Event.logInfoJoinCompleted n] := by
  intro fuel
  induction fuel with
  | zero => intro att iter n h; simp [retryJoinLoop] at h
  | succ fuel ih =>
    intro att iter n h
    rcases hstep : retryJoinStep cfg (env.discover iter) (env.joinLAN iter) addrs disco att
      with ⟨evs, sr⟩
    cases sr with
    | success m =>
      rw [retryJoinLoop] at h ⊢
      rw [hstep] at h ⊢
      simp at h ⊢
      subst h
      have hsh := step_success_shape cfg (env.discover iter) (env.joinLAN iter)
        addrs disco att m (by rw [hstep])
      rw [hstep] at hsh
      simpa using hsh
    | exhausted =>
      rw [retryJoinLoop] at h
      rw [hstep] at h
      simp at h
    | retry a =>
      rw [retryJoinLoop] at h ⊢
      rw [hstep] at h ⊢
      simp at h ⊢
      rcases ih a (iter + 1) n h with ⟨pre, srv, hpre⟩
      exact ⟨evs ++ pre, srv, by simp [hpre]⟩

lemma lanLoop_exhausted_shape (cfg : Config) (env : LanEnv) (addrs : List String)
    (disco : String) :
    ∀ fuel att iter,
      (retryJoinLoop cfg env addrs disco att iter fuel).2 = Outcome.exhausted →
      ∃ pre, (retryJoinLoop cfg env addrs disco att iter fuel).1 =
        pre ++ [Event.sinkSend "agent: max join retry exhausted, exiting"] := by
  intro fuel
  induction fuel with
  | zero => intro att iter h; simp [retryJoinLoop] at h
  | succ fuel ih =>
    intro att iter h
    rcases hstep : retryJoinStep cfg (env.discover iter) (env.joinLAN iter) addrs disco att
      with ⟨evs, sr⟩
    cases sr with
    | success m =>
      rw [retryJoinLoop] at h
      rw [hstep] at h
      simp at h
    | exhausted =>
      rw [retryJoinLoop] at h ⊢
      rw [hstep] at h ⊢
      have := step_exhausted_shape cfg (env.discover iter) (env.joinLAN iter) addrs disco att
        (by rw [hstep])
      rw [hstep] at this
      exact this
    | retry a =>
      rw [retryJoinLoop] at h ⊢
      rw [hstep] at h ⊢
      simp at h ⊢
      rcases ih a (iter + 1) h with ⟨pre, hpre⟩
      exact ⟨evs ++ pre, by simp [hpre]⟩

lemma lanLoop_not_exhausted_of_unbounded (cfg : Config) (env : LanEnv)
    (addrs : List String) (disco : String) (hmax : cfg.RetryMaxAttempts = 0) :
    ∀ fuel att iter,
      (retryJoinLoop cfg env addrs disco att iter fuel).2 ≠ Outcome.exhausted := by
  intro fuel
  induction fuel with
  | zero => intro att iter h; rw [retryJoinLoop] at h; simp at h
  | succ fuel ih =>
    intro att iter h
    rcases hstep : retryJoinStep cfg (env.discover iter) (env.joinLAN iter) addrs disco att
      with ⟨evs, sr⟩
    cases sr with
    | success m =>
      rw [retryJoinLoop] at h
      rw [hstep] at h
      simp at h
    | exhausted =>
      have := step_exhausted_cond cfg (env.discover iter) (env.joinLAN iter) addrs disco att
        (by rw [hstep])
      rw [hmax] at this
      exact absurd this.1 (by simp)
    | retry a =>
      rw [retryJoinLoop] at h
      rw [hstep] at h
      simp at h
      exact ih a (iter + 1) h

lemma lanLoop_no_sink_of_unbounded (cfg : Config) (env : LanEnv)
    (addrs : List String) (disco : String) (hmax : cfg.RetryMaxAttempts = 0) :
    ∀ fuel att iter,
      countSinkSends (retryJoinLoop cfg env addrs disco att iter fuel).1 = 0 ∧
      (retryJoinLoop cfg env addrs disco att iter fuel).2 ≠ Outcome.exhausted := by
  intro fuel att iter
  have hne := lanLoop_not_exhausted_of_unbounded cfg env addrs disco hmax fuel att iter
  have hs := lanLoop_sink_outcome cfg env addrs disco fuel att iter
  rw [if_neg hne] at hs
  exact ⟨hs, hne⟩

lemma lanCandidates_ne_nil (d : Except String (List String))
    (addrs : List String) (disco : String) (haddrs : addrs ≠ []) :
    lanCandidates d addrs disco ≠ [] := by
  unfold lanCandidates
  intro hc
  exact haddrs (List.append_eq_nil.mp hc).2

lemma lanLoop_exhaust_count (cfg : Config) (env : LanEnv) (addrs : List String)
    (disco : String) (N : Nat) (hmax : cfg.RetryMaxAttempts = N) (hN : 0 < N)
    (haddrs : addrs ≠ [])
    (hfail : ∀ i s, ∃ e, env.joinLAN i s = Except.error e) :
    ∀ fuel att iter, att ≤ N → N + 1 - att ≤ fuel →
      countLanJoinCalls (retryJoinLoop cfg env addrs disco att iter fuel).1 =
        N + 1 - att ∧
      countSinkSends (retryJoinLoop cfg env addrs disco att iter fuel).1 = 1 ∧
      (retryJoinLoop cfg env addrs disco att iter fuel).2 = Outcome.exhausted := by
  intro fuel
  induction fuel with
  | zero => intro att iter hle hf; omega
  | succ fuel ih =>
    intro att iter hle hf
    have hisf := step_isFailure_of_error cfg (env.discover iter) (env.joinLAN iter)
      addrs disco att (hfail iter)
    have hfc := step_failure_cases cfg (env.discover iter) (env.joinLAN iter)
      addrs disco att hisf
    have hjc := (step_join_calls cfg (env.discover iter) (env.joinLAN iter)
      addrs disco att).2.2
    have hsk := step_sink_count cfg (env.discover iter) (env.joinLAN iter)
      addrs disco att
    have hcand := lanCandidates_ne_nil (env.discover iter) addrs disco haddrs
    rw [if_neg hcand] at hjc
    by_cases hatt : att = N
    · subst hatt
      have hex := hfc.1 (by rw [hmax]; exact ⟨hN, by omega⟩)
      rcases hstep : retryJoinStep cfg (env.discover iter) (env.joinLAN iter)
        addrs disco att with ⟨evs, sr⟩
      rw [hstep] at hex hjc hsk
      simp at hex
      subst hex
      simp at hjc hsk
      rw [retryJoinLoop]
      rw [hstep]
      refine ⟨?_, ?_, rfl⟩
      · show countLanJoinCalls evs = att + 1 - att
        rw [hjc]
        omega
      · exact hsk
    · have hlt : att < N := lt_of_le_of_ne hle hatt
      have hr := hfc.2 (by rw [hmax]; omega)
      rcases hstep : retryJoinStep cfg (env.discover iter) (env.joinLAN iter)
        addrs disco att with ⟨evs, sr⟩
      rw [hstep] at hr hjc hsk
      simp at hr
      subst hr
      simp at hjc hsk
      rw [retryJoinLoop]
      rw [hstep]
      rcases ih (att + 1) (iter + 1) (by omega) (by omega) with ⟨ih1, ih2, ih3⟩
      refine ⟨?_, ?_, ?_⟩
      · show countLanJoinCalls (evs ++ (retryJoinLoop cfg env addrs disco (att + 1) (iter + 1) fuel).1) = N + 1 - att
        rw [countLanJoinCalls_append, hjc, ih1]
        omega
      · show countSinkSends (evs ++ (retryJoinLoop cfg env addrs disco (att + 1) (iter + 1) fuel).1) = 1
        rw [countSinkSends_append, hsk, ih2]
      · exact ih3

/-! ### Whole-run invariants of the WAN loop -/

lemma wanLoop_sink_outcome (cfg : Config) (env : WanEnv) :
    ∀ fuel att iter,
      countSinkSends (retryJoinWanLoop cfg env att iter fuel).1 =
        if (retryJoinWanLoop cfg env att iter fuel).2 = Outcome.exhausted
        then 1 else 0 := by
  intro fuel
  induction fuel with
  | zero => intro att iter; simp [retryJoinWanLoop, countSinkSends]
  | succ fuel ih =>
    intro att iter
    have hs := wanStep_sink_count cfg (env.joinWAN iter) att
    rcases hstep : retryJoinWanStep cfg (env.joinWAN iter) att with ⟨evs, sr⟩
    rw [hstep] at hs
    cases sr with
    | success n =>
      simp at hs
      simp [retryJoinWanLoop, hstep, hs]
    | exhausted =>
      simp at hs
      simp [retryJoinWanLoop, hstep, hs]
    | retry a =>
      simp at hs
      simp [retryJoinWanLoop, hstep, countSinkSends_append, hs, ih a (iter + 1)]

lemma wanLoop_success_shape (cfg : Config) (env : WanEnv) :
    ∀ fuel att iter n,
      (retryJoinWanLoop cfg env att iter fuel).2 = Outcome.success n →
      ∃ pre srv, (retryJoinWanLoop cfg env att iter fuel).1 =
        pre ++ [Event.joinWANCall srv, Event.logInfoJoinWanCompleted n] := by
  intro fuel
  induction fuel with
  | zero => intro att iter n h; simp [retryJoinWanLoop] at h
  | succ fuel ih =>
    intro att iter n h
    rcases hstep : retryJoinWanStep cfg (env.joinWAN iter) att with ⟨evs, sr⟩
    cases sr with
    | success m =>
      rw [retryJoinWanLoop] at h ⊢
      rw [hstep] at h ⊢
      simp at h ⊢
      subst h
      have hsh := wanStep_success_shape cfg (env.joinWAN iter) att m (by rw [hstep])
      rw [hstep] at hsh
      simpa using hsh
    | exhausted =>
      rw [retryJoinWanLoop] at h
      rw [hstep] at h
      simp at h
    | retry a =>
      rw [retryJoinWanLoop] at h ⊢
      rw [hstep] at h ⊢
      simp at h ⊢
      rcases ih a (iter + 1) n h with ⟨pre, srv, hpre⟩
      exact ⟨evs ++ pre, srv, by simp [hpre]⟩

lemma wanLoop_exhausted_shape (cfg : Config) (env : WanEnv) :
    ∀ fuel att iter,
      (retryJoinWanLoop cfg env att iter fuel).2 = Outcome.exhausted →
      ∃ pre, (retryJoinWanLoop cfg env att iter fuel).1 =
        pre ++ [Event.sinkSend "agent: max join -wan retry exhausted, exiting"] := by
  intro fuel
  induction fuel with
  | zero => intro att iter h; simp [retryJoinWanLoop] at h
  | succ fuel ih =>
    intro att iter h
    rcases hstep : retryJoinWanStep cfg (env.joinWAN iter) att with ⟨evs, sr⟩
    cases sr with
    | success m =>
      rw [retryJoinWanLoop] at h
      rw [hstep] at h
      simp at h
    | exhausted =>
      rw [retryJoinWanLoop] at h ⊢
      rw [hstep] at h ⊢
      have hsh := wanStep_exhausted_shape cfg (env.joinWAN iter) att (by rw [hstep])
      rw [hstep] at hsh
      exact hsh
    | retry a =>
      rw [retryJoinWanLoop] at h ⊢
      rw [hstep] at h ⊢
      simp at h ⊢
      rcases ih a (iter + 1) h with ⟨pre, hpre⟩
      exact ⟨evs ++ pre, by simp [hpre]⟩

lemma wanLoop_not_exhausted_of_unbounded (cfg : Config) (env : WanEnv)
    (hmax : cfg.RetryMaxAttemptsWan = 0) :
    ∀ fuel att iter,
      (retryJoinWanLoop cfg env att iter fuel).2 ≠ Outcome.exhausted := by
  intro fuel
  induction fuel with
  | zero => intro att iter h; rw [retryJoinWanLoop] at h; simp at h
  | succ fuel ih =>
    intro att iter h
    rcases hstep : retryJoinWanStep cfg (env.joinWAN iter) att with ⟨evs, sr⟩
    cases sr with
    | success m =>
      rw [retryJoinWanLoop] at h
      rw [hstep] at h
      simp at h
    | exhausted =>
      have := wanStep_exhausted_cond cfg (env.joinWAN iter) att (by rw [hstep])
      rw [hmax] at this
      exact absurd this.1 (by simp)
    | retry a =>
      rw [retryJoinWanLoop] at h
      rw [hstep] at h
      simp at h
      exact ih a (iter + 1) h

lemma wanLoop_no_sink_of_unbounded (cfg : Config) (env : WanEnv)
    (hmax : cfg.RetryMaxAttemptsWan = 0) :
    ∀ fuel att iter,
      countSinkSends (retryJoinWanLoop cfg env att iter fuel).1 = 0 ∧
      (retryJoinWanLoop cfg env att iter fuel).2 ≠ Outcome.exhausted := by
  intro fuel att iter
  have hne := wanLoop_not_exhausted_of_unbounded cfg env hmax fuel att iter
  have hs := wanLoop_sink_outcome cfg env fuel att iter
  rw [if_neg hne] at hs
  exact ⟨hs, hne⟩

lemma wanLoop_join_verbatim (cfg : Config) (env : WanEnv) :
    ∀ fuel att iter,
      (∀ l, Event.joinWANCall l ∈ (retryJoinWanLoop cfg env att iter fuel).1 →
        l = cfg.RetryJoinWan) ∧
      (1 ≤ fuel →
        Event.joinWANCall cfg.RetryJoinWan ∈
          (retryJoinWanLoop cfg env att iter fuel).1) := by
  intro fuel
  induction fuel with
  | zero =>
    intro att iter
    refine ⟨?_, by omega⟩
    intro l hl
    rw [retryJoinWanLoop] at hl
    simp at hl
  | succ fuel ih =>
    intro att iter
    have hjc := wanStep_join_calls cfg (env.joinWAN iter) att
    rcases hstep : retryJoinWanStep cfg (env.joinWAN iter) att with ⟨evs, sr⟩
    rw [hstep] at hjc
    simp at hjc
    cases sr with
    | success m =>
      rw [retryJoinWanLoop]
      rw [hstep]
      exact ⟨fun l hl => hjc.1 l hl, fun _ => hjc.2.1⟩
    | exhausted =>
      rw [retryJoinWanLoop]
      rw [hstep]
      exact ⟨fun l hl => hjc.1 l hl, fun _ => hjc.2.1⟩
    | retry a =>
      rw [retryJoinWanLoop]
      rw [hstep]
      refine ⟨?_, ?_⟩
      · intro l hl
        simp at hl
        rcases hl with hl | hl
        · exact hjc.1 l hl
        · exact ((ih a (iter + 1)).1) l hl
      · intro _
        simp
        exact Or.inl hjc.2.1

lemma wanLoop_exhaust_count (cfg : Config) (env : WanEnv) (N : Nat)
    (hmax : cfg.RetryMaxAttemptsWan = N) (hN : 0 < N)
    (hfail : ∀ i s, ∃ e, env.joinWAN i s = Except.error e) :
    ∀ fuel att iter, att ≤ N → N + 1 - att ≤ fuel →
      countWanJoinCalls (retryJoinWanLoop cfg env att iter fuel).1 =
        N + 1 - att ∧
      countSinkSends (retryJoinWanLoop cfg env att iter fuel).1 = 1 ∧
      (retryJoinWanLoop cfg env att iter fuel).2 = Outcome.exhausted := by
  intro fuel
  induction fuel with
  | zero => intro att iter hle hf; omega
  | succ fuel ih =>
    intro att iter hle hf
    have hisf := wanStep_isFailure_of_error cfg (env.joinWAN iter) att (hfail iter)
    have hfc := wanStep_failure_cases cfg (env.joinWAN iter) att hisf
    have hjc := (wanStep_join_calls cfg (env.joinWAN iter) att).2.2
    have hsk := wanStep_sink_count cfg (env.joinWAN iter) att
    by_cases hatt : att = N
    · subst hatt
      have hex := hfc.1 (by rw [hmax]; exact ⟨hN, by omega⟩)
      rcases hstep : retryJoinWanStep cfg (env.joinWAN iter) att with ⟨evs, sr⟩
      rw [hstep] at hex hjc hsk
      simp at hex
      subst hex
      simp at hjc hsk
      rw [retryJoinWanLoop]
      rw [hstep]
      refine ⟨?_, ?_, rfl⟩
      · show countWanJoinCalls evs = att + 1 - att
        rw [hjc]
        omega
      · exact hsk
    · have hlt : att < N := lt_of_le_of_ne hle hatt
      have hr := hfc.2 (by rw [hmax]; omega)
      rcases hstep : retryJoinWanStep cfg (env.joinWAN iter) att with ⟨evs, sr⟩
      rw [hstep] at hr hjc hsk
      simp at hr
      subst hr
      simp at hjc hsk
      rw [retryJoinWanLoop]
      rw [hstep]
      rcases ih (att + 1) (iter + 1) (by omega) (by omega) with ⟨ih1, ih2, ih3⟩
      refine ⟨?_, ?_, ?_⟩
      · show countWanJoinCalls
            (evs ++ (retryJoinWanLoop cfg env (att + 1) (iter + 1) fuel).1) =
            N + 1 - att
        rw [countWanJoinCalls_append, hjc, ih1]
        omega
      · show countSinkSends
            (evs ++ (retryJoinWanLoop cfg env (att + 1) (iter + 1) fuel).1) = 1
        rw [countSinkSends_append, hsk, ih2]
      · exact ih3

/-! ### Characterisation of the address split -/

lemma splitFoldl_aux (p : String → Bool) (spec : List String) :
    ∀ s0 d0,
      spec.foldl
        (fun acc addr =>
          if p addr then (acc.1, addr) else (acc.1 ++ [addr], acc.2))
        (s0, d0) =
      (s0 ++ spec.filter (fun a => !(p a)), (spec.filter p).getLastD d0) := by
  induction spec with
  | nil => intro s0 d0; simp
  | cons a rest ih =>
    intro s0 d0
    rw [List.foldl_cons]
    by_cases hm : p a
    · rw [if_pos hm, ih, List.filter_cons_of_pos hm,
        List.filter_cons_of_neg (by simp [hm]), List.getLastD_cons]
    · have hmf : p a = false := by simpa using hm
      rw [if_neg hm, ih, List.filter_cons_of_neg hm,
        List.filter_cons_of_pos (by simp [hmf]),
        List.append_assoc, List.singleton_append]

/-! ### Lifting event counts over the start-up log line -/

lemma countSinkSends_infoJoining (l : List Event) :
    countSinkSends (Event.logInfoJoining :: l) = countSinkSends l := by
  simp [countSinkSends]

lemma countSinkSends_infoJoiningWan (l : List Event) :
    countSinkSends (Event.logInfoJoiningWan :: l) = countSinkSends l := by
  simp [countSinkSends]

lemma countLanJoinCalls_infoJoining (l : List Event) :
    countLanJoinCalls (Event.logInfoJoining :: l) = countLanJoinCalls l := by
  simp [countLanJoinCalls]

lemma countWanJoinCalls_infoJoiningWan (l : List Event) :
    countWanJoinCalls (Event.logInfoJoiningWan :: l) = countWanJoinCalls l := by
  simp [countWanJoinCalls]

lemma step_result_disco_indep (cfg : Config) (j : List String → Except String Nat)
    (addrs : List String) (disco : String) (att : Nat) (e : String)
    (hd : disco ≠ "") :
    (retryJoinStep cfg (Except.error e) j addrs disco att).2 =
      (retryJoinStep cfg (Except.ok []) j addrs disco att).2 := by
  unfold retryJoinStep lanAfterFailure
  by_cases hc : 0 < cfg.RetryMaxAttempts ∧ cfg.RetryMaxAttempts < att + 1 <;>
    by_cases ha : addrs = [] <;> simp [hd, ha, hc]
  all_goals rcases hj : j addrs with er | n <;> simp [hj, hc]

/-! ### The claims -/

/-- C3: for every ordered JoinSpec, the address-resolution loop keeps every
entry without the `provider=` marker in `staticAddrs` in original order,
excludes every marker entry, and retains only the last marker entry as the
discovery directive (the empty string when there is none); in particular
`["10.0.0.1", "provider=mock key=value", "10.0.0.2"]` yields
`(["10.0.0.1", "10.0.0.2"], "provider=mock key=value")`. -/
theorem addressResolver_partition_spec :
    (∀ spec : List String,
      splitRetryJoin spec =
        (spec.filter (fun a => !(goStringContains a "provider=")),
         (spec.filter (fun a => goStringContains a "provider=")).getLastD "")) ∧
    splitRetryJoin ["10.0.0.1", "provider=mock key=value", "10.0.0.2"] =
      (["10.0.0.1", "10.0.0.2"], "provider=mock key=value") := by
  constructor
  · intro spec
    have h := splitFoldl_aux (fun a => goStringContains a "provider=") spec [] ""
    unfold splitRetryJoin
    simpa using h
  · decide

/-- C9: a controller whose JoinSpec is empty at startup does nothing at all:
no log output, no join attempt, no FailureSink write, no loop iteration. -/
theorem empty_joinspec_noop (cfg : Config) (lanEnv : LanEnv) (wanEnv : WanEnv)
    (fuel : Nat) (hL : cfg.RetryJoin = []) (hW : cfg.RetryJoinWan = []) :
    retryJoin cfg lanEnv fuel = ([], Outcome.notConfigured) ∧
    retryJoinWan cfg wanEnv fuel = ([], Outcome.notConfigured) := by
  unfold retryJoin retryJoinWan
  rw [hL, hW]
  simp

/-- Witness for C9 at a concrete configuration. -/
theorem empty_joinspec_noop_witness :
    retryJoin ⟨[], 1, 0, [], 1, 0⟩
        ⟨fun _ => Except.ok [], fun _ _ => Except.error "x"⟩ 5 =
      ([], Outcome.notConfigured) ∧
    retryJoinWan ⟨[], 1, 0, [], 1, 0⟩ ⟨fun _ _ => Except.error "x"⟩ 5 =
      ([], Outcome.notConfigured) :=
  empty_joinspec_noop _ _ _ 5 rfl rfl

/-- C10: the WAN controller performs no address partitioning or discovery:
every `JoinWAN` call in every iteration receives the configured
`RetryJoinWan` list verbatim, and (when the list is non-empty and at least
one iteration runs) such a call does occur. -/
theorem wan_join_verbatim_claim (cfg : Config) (env : WanEnv) (fuel : Nat) :
    (∀ l, Event.joinWANCall l ∈ (retryJoinWan cfg env fuel).1 →
      l = cfg.RetryJoinWan) ∧
    (cfg.RetryJoinWan ≠ [] → 1 ≤ fuel →
      Event.joinWANCall cfg.RetryJoinWan ∈ (retryJoinWan cfg env fuel).1) := by
  unfold retryJoinWan
  by_cases h : cfg.RetryJoinWan.length = 0
  · rw [if_pos h]
    constructor
    · intro l hl
      simp at hl
    · intro hne _
      exact absurd (List.length_eq_zero.mp h) hne
  · rw [if_neg h]
    dsimp only
    have hv := wanLoop_join_verbatim cfg env fuel 0 0
    constructor
    · intro l hl
      rcases List.mem_cons.mp hl with hh | hh
      · exact absurd hh (by simp)
      · exact hv.1 l hh
    · intro _ hf
      exact List.mem_cons_of_mem _ (hv.2 hf)

/-- Witness for C10: an entry containing `provider=` is passed to `JoinWAN`
literally, as part of the verbatim configured list. -/
theorem wan_join_verbatim_claim_witness :
    Event.joinWANCall ["provider=mock key=value", "10.0.0.3"] ∈
      (retryJoinWan ⟨[], 1, 0, ["provider=mock key=value", "10.0.0.3"], 2, 0⟩
        ⟨fun _ _ => Except.error "refused"⟩ 3).1 :=
  (wan_join_verbatim_claim ⟨[], 1, 0, ["provider=mock key=value", "10.0.0.3"], 2, 0⟩
    ⟨fun _ _ => Except.error "refused"⟩ 3).2 (by decide) (by decide)

/-- C8 (code bug): on a failed `JoinLAN` attempt the retry warning logs the
outer `err` variable, which is still nil — the join error is lost to the
`:=` shadowing in `n, err := a.JoinLAN(servers)` — so the warning does not
contain the error that caused the failure of the attempt. -/
theorem join_error_warn_log_shadowed :
    (retryJoin ⟨["10.0.0.1"], 30, 0, [], 0, 0⟩
        ⟨fun _ => Except.ok [], fun _ _ => Except.error "connection refused"⟩ 1).1 =
      [Event.logInfoJoining, Event.joinLANCall ["10.0.0.1"],
        Event.logWarnJoinFailed none 30, Event.sleep 30] ∧
    Event.logWarnJoinFailed (some "connection refused") 30 ∉
      (retryJoin ⟨["10.0.0.1"], 30, 0, [], 0, 0⟩
        ⟨fun _ => Except.ok [], fun _ _ => Except.error "connection refused"⟩ 1).1 := by
  constructor
  · decide
  · decide

/-- C2: after every failed iteration the attempt counter is incremented by
exactly one, and the controller delivers a terminal error and terminates iff
`maxAttempts > 0` and the incremented counter strictly exceeds
`maxAttempts`; otherwise it sleeps for the configured interval and retries.
Stated for a LAN and a WAN iteration. -/
theorem retry_attempt_increment_and_terminal_iff
    (cfg : Config) (d : Except String (List String))
    (jL jW : List String → Except String Nat) (addrs : List String)
    (disco : String) (att : Nat)
    (hL : (retryJoinStep cfg d jL addrs disco att).2.isFailure = true)
    (hW : (retryJoinWanStep cfg jW att).2.isFailure = true) :
    (((retryJoinStep cfg d jL addrs disco att).2 = StepResult.exhausted ∧
        countSinkSends (retryJoinStep cfg d jL addrs disco att).1 = 1) ↔
      (0 < cfg.RetryMaxAttempts ∧ cfg.RetryMaxAttempts < att + 1)) ∧
    (¬(0 < cfg.RetryMaxAttempts ∧ cfg.RetryMaxAttempts < att + 1) →
      ((retryJoinStep cfg d jL addrs disco att).2 = StepResult.retry (att + 1) ∧
       Event.sleep cfg.RetryInterval ∈ (retryJoinStep cfg d jL addrs disco att).1 ∧
       countSinkSends (retryJoinStep cfg d jL addrs disco att).1 = 0)) ∧
    (((retryJoinWanStep cfg jW att).2 = StepResult.exhausted ∧
        countSinkSends (retryJoinWanStep cfg jW att).1 = 1) ↔
      (0 < cfg.RetryMaxAttemptsWan ∧ cfg.RetryMaxAttemptsWan < att + 1)) ∧
    (¬(0 < cfg.RetryMaxAttemptsWan ∧ cfg.RetryMaxAttemptsWan < att + 1) →
      ((retryJoinWanStep cfg jW att).2 = StepResult.retry (att + 1) ∧
       Event.sleep cfg.RetryIntervalWan ∈ (retryJoinWanStep cfg jW att).1 ∧
       countSinkSends (retryJoinWanStep cfg jW att).1 = 0)) := by
  have hsC := step_sink_count cfg d jL addrs disco att
  have hfc := step_failure_cases cfg d jL addrs disco att hL
  have hsW := wanStep_sink_count cfg jW att
  have hfw := wanStep_failure_cases cfg jW att hW
  refine ⟨⟨?_, ?_⟩, ?_, ⟨?_, ?_⟩, ?_⟩
  · rintro ⟨hex, _⟩
    exact step_exhausted_cond cfg d jL addrs disco att hex
  · intro hc
    have hex := hfc.1 hc
    exact ⟨hex, by rw [hsC, if_pos hex]⟩
  · intro hc
    have hr := hfc.2 hc
    have hsl := step_retry_sleep cfg d jL addrs disco att (att + 1) hr
    exact ⟨hr, hsl.2, by rw [hsC, if_neg (by rw [hr]; simp)]⟩
  · rintro ⟨hex, _⟩
    exact wanStep_exhausted_cond cfg jW att hex
  · intro hc
    have hex := hfw.1 hc
    exact ⟨hex, by rw [hsW, if_pos hex]⟩
  · intro hc
    have hr := hfw.2 hc
    have hsl := wanStep_retry_sleep cfg jW att (att + 1) hr
    exact ⟨hr, hsl.2, by rw [hsW, if_neg (by rw [hr]; simp)]⟩

/-- Witness for C2: with `maxAttempts = 2` and a failing first attempt, both
controllers retry with counter 1. -/
theorem retry_attempt_increment_and_terminal_iff_witness :
    (retryJoinStep ⟨["10.0.0.1"], 3, 2, ["10.0.0.9"], 4, 2⟩ (Except.ok [])
        (fun _ => Except.error "refused") ["10.0.0.1"] "" 0).2 =
      StepResult.retry 1 ∧
    (retryJoinWanStep ⟨["10.0.0.1"], 3, 2, ["10.0.0.9"], 4, 2⟩
        (fun _ => Except.error "refused") 0).2 = StepResult.retry 1 := by
  have h := retry_attempt_increment_and_terminal_iff
    ⟨["10.0.0.1"], 3, 2, ["10.0.0.9"], 4, 2⟩ (Except.ok [])
    (fun _ => Except.error "refused") (fun _ => Except.error "refused")
    ["10.0.0.1"] "" 0 (by decide) (by decide)
  exact ⟨(h.2.1 (by decide)).1, (h.2.2.2 (by decide)).1⟩

/-- C4: in every LAN iteration the candidate list handed to `JoinLAN` is the
discovery contribution followed by the static addresses
(`discoveryAddrs ++ staticAddrs`); when discovery resolution fails the
candidate list is the static addresses alone, the resolution failure never
changes how the iteration terminates, and a join attempt still occurs
whenever the static list is non-empty. -/
theorem lan_candidates_discovery_concat (cfg : Config)
    (d : Except String (List String)) (j : List String → Except String Nat)
    (addrs : List String) (disco : String) (att : Nat) (e : String) :
    (∀ l, Event.joinLANCall l ∈ (retryJoinStep cfg d j addrs disco att).1 →
      l = lanCandidates d addrs disco) ∧
    (disco ≠ "" →
      (∀ l, Event.joinLANCall l ∈
          (retryJoinStep cfg (Except.error e) j addrs disco att).1 →
        l = addrs) ∧
      (addrs ≠ [] →
        Event.joinLANCall addrs ∈
          (retryJoinStep cfg (Except.error e) j addrs disco att).1) ∧
      (retryJoinStep cfg (Except.error e) j addrs disco att).2 =
        (retryJoinStep cfg (Except.ok []) j addrs disco att).2) := by
  have hj1 := step_join_calls cfg d j addrs disco att
  refine ⟨hj1.1, ?_⟩
  intro hd
  have hcand : lanCandidates (Except.error e) addrs disco = addrs := by
    unfold lanCandidates
    rw [if_neg hd]
    rfl
  have hj2 := step_join_calls cfg (Except.error e) j addrs disco att
  rw [hcand] at hj2
  exact ⟨hj2.1, fun ha => hj2.2.1 ha,
    step_result_disco_indep cfg j addrs disco att e hd⟩

/-- Witness for C4: with a failing discovery resolution and one static
address, the join attempt still occurs, on the static address alone. -/
theorem lan_candidates_discovery_concat_witness :
    Event.joinLANCall ["10.0.0.1"] ∈
      (retryJoinStep ⟨["10.0.0.1", "provider=mock"], 3, 0, [], 0, 0⟩
        (Except.error "no credentials")
        (fun _ => Except.error "refused") ["10.0.0.1"] "provider=mock" 0).1 := by
  have h := lan_candidates_discovery_concat
    ⟨["10.0.0.1", "provider=mock"], 3, 0, [], 0, 0⟩
    (Except.error "no credentials") (fun _ => Except.error "refused")
    ["10.0.0.1"] "provider=mock" 0 "no credentials"
  exact (h.2 (by decide)).2.1 (by decide)

/-- C5: in an iteration whose combined candidate list is empty, no join call
is made, the iteration counts as a failure, and (when it retries) the
warning carries the "No servers to join" error. -/
theorem empty_candidates_failure_no_join (cfg : Config)
    (d : Except String (List String)) (j : List String → Except String Nat)
    (addrs : List String) (disco : String) (att : Nat)
    (h : lanCandidates d addrs disco = []) :
    (∀ l, Event.joinLANCall l ∉ (retryJoinStep cfg d j addrs disco att).1) ∧
    (retryJoinStep cfg d j addrs disco att).2.isFailure = true ∧
    (∀ a, (retryJoinStep cfg d j addrs disco att).2 = StepResult.retry a →
      Event.logWarnJoinFailed (some "No servers to join") cfg.RetryInterval ∈
        (retryJoinStep cfg d j addrs disco att).1) := by
  unfold lanCandidates at h
  unfold retryJoinStep lanAfterFailure
  revert h
  rcases d with l | e <;> by_cases hd : disco = "" <;> simp [hd]
  all_goals intro h
  all_goals try rcases h with ⟨h1, h2⟩
  all_goals simp_all
  all_goals try split
  all_goals simp_all [StepResult.isFailure]

/-- Witness for C5: with no discovery statement and no static addresses the
iteration makes no join call and retries with the "No servers to join"
warning. -/
theorem empty_candidates_failure_no_join_witness :
    Event.logWarnJoinFailed (some "No servers to join") 7 ∈
      (retryJoinStep ⟨[], 7, 0, [], 0, 0⟩ (Except.ok [])
        (fun _ => Except.error "x") [] "" 0).1 := by
  have h := empty_candidates_failure_no_join ⟨[], 7, 0, [], 0, 0⟩ (Except.ok [])
    (fun _ => Except.error "x") [] "" 0 (by decide)
  exact h.2.2 1 (by decide)

/-- C6: with `maxAttempts = 0` no failure of any kind ever causes a terminal
error or stops the controller: for every environment (join errors, discovery
errors, empty candidate lists alike) and every observation window, no
FailureSink write occurs and the run never ends exhausted. -/
theorem unbounded_retry_never_terminal (cfg : Config) (lanEnv : LanEnv)
    (wanEnv : WanEnv) (fuel : Nat)
    (hL : cfg.RetryMaxAttempts = 0) (hW : cfg.RetryMaxAttemptsWan = 0) :
    countSinkSends (retryJoin cfg lanEnv fuel).1 = 0 ∧
    (retryJoin cfg lanEnv fuel).2 ≠ Outcome.exhausted ∧
    countSinkSends (retryJoinWan cfg wanEnv fuel).1 = 0 ∧
    (retryJoinWan cfg wanEnv fuel).2 ≠ Outcome.exhausted := by
  have hlan := lanLoop_no_sink_of_unbounded cfg lanEnv
    (splitRetryJoin cfg.RetryJoin).1 (splitRetryJoin cfg.RetryJoin).2 hL fuel 0 0
  have hwan := wanLoop_no_sink_of_unbounded cfg wanEnv hW fuel 0 0
  refine ⟨?_, ?_, ?_, ?_⟩
  · unfold retryJoin
    by_cases h1 : cfg.RetryJoin.length = 0
    · rw [if_pos h1]
      rfl
    · rw [if_neg h1]
      dsimp only
      rw [countSinkSends_infoJoining]
      exact hlan.1
  · unfold retryJoin
    by_cases h1 : cfg.RetryJoin.length = 0
    · rw [if_pos h1]
      simp
    · rw [if_neg h1]
      dsimp only
      exact hlan.2
  · unfold retryJoinWan
    by_cases h2 : cfg.RetryJoinWan.length = 0
    · rw [if_pos h2]
      rfl
    · rw [if_neg h2]
      dsimp only
      rw [countSinkSends_infoJoiningWan]
      exact hwan.1
  · unfold retryJoinWan
    by_cases h2 : cfg.RetryJoinWan.length = 0
    · rw [if_pos h2]
      simp
    · rw [if_neg h2]
      dsimp only
      exact hwan.2

/-- Witness for C6: five consecutive failed iterations with unbounded
retries emit no terminal error. -/
theorem unbounded_retry_never_terminal_witness :
    countSinkSends (retryJoin ⟨["10.0.0.1"], 1, 0, ["10.0.0.2"], 1, 0⟩
        ⟨fun _ => Except.ok [], fun _ _ => Except.error "refused"⟩ 5).1 = 0 ∧
    (retryJoin ⟨["10.0.0.1"], 1, 0, ["10.0.0.2"], 1, 0⟩
        ⟨fun _ => Except.ok [], fun _ _ => Except.error "refused"⟩ 5).2 ≠
      Outcome.exhausted ∧
    countSinkSends (retryJoinWan ⟨["10.0.0.1"], 1, 0, ["10.0.0.2"], 1, 0⟩
        ⟨fun _ _ => Except.error "refused"⟩ 5).1 = 0 ∧
    (retryJoinWan ⟨["10.0.0.1"], 1, 0, ["10.0.0.2"], 1, 0⟩
        ⟨fun _ _ => Except.error "refused"⟩ 5).2 ≠ Outcome.exhausted :=
  unbounded_retry_never_terminal _ _ _ 5 rfl rfl

/-- C7: each controller run delivers at most one terminal error; a run that
ends in success emitted no terminal error and its trace ends with the
successful join call followed by the completion log (so no further sleep,
log output or join attempt follows), and a run that ends exhausted emitted
exactly one terminal error, as its final action. -/
theorem terminal_once_and_stop_on_success (cfg : Config) (lanEnv : LanEnv)
    (wanEnv : WanEnv) (fuel : Nat) :
    countSinkSends (retryJoin cfg lanEnv fuel).1 ≤ 1 ∧
    (∀ n, (retryJoin cfg lanEnv fuel).2 = Outcome.success n →
      countSinkSends (retryJoin cfg lanEnv fuel).1 = 0 ∧
      ∃ pre srv, (retryJoin cfg lanEnv fuel).1 =
        pre ++ [Event.joinLANCall srv, Event.logInfoJoinCompleted n]) ∧
    ((retryJoin cfg lanEnv fuel).2 = Outcome.exhausted →
      countSinkSends (retryJoin cfg lanEnv fuel).1 = 1 ∧
      ∃ pre, (retryJoin cfg lanEnv fuel).1 =
        pre ++ [Event.sinkSend "agent: max join retry exhausted, exiting"]) ∧
    countSinkSends (retryJoinWan cfg wanEnv fuel).1 ≤ 1 ∧
    (∀ n, (retryJoinWan cfg wanEnv fuel).2 = Outcome.success n →
      countSinkSends (retryJoinWan cfg wanEnv fuel).1 = 0 ∧
      ∃ pre srv, (retryJoinWan cfg wanEnv fuel).1 =
        pre ++ [Event.joinWANCall srv, Event.logInfoJoinWanCompleted n]) ∧
    ((retryJoinWan cfg wanEnv fuel).2 = Outcome.exhausted →
      countSinkSends (retryJoinWan cfg wanEnv fuel).1 = 1 ∧
      ∃ pre, (retryJoinWan cfg wanEnv fuel).1 =
        pre ++ [Event.sinkSend "agent: max join -wan retry exhausted, exiting"]) := by
  refine ⟨?_, ?_, ?_, ?_, ?_, ?_⟩
  · unfold retryJoin
    by_cases h1 : cfg.RetryJoin.length = 0
    · rw [if_pos h1]
      simp [countSinkSends]
    · rw [if_neg h1]
      dsimp only
      rw [countSinkSends_infoJoining,
        lanLoop_sink_outcome cfg lanEnv _ _ fuel 0 0]
      split <;> simp
  · intro n hn
    by_cases h1 : cfg.RetryJoin.length = 0
    · unfold retryJoin at hn
      rw [if_pos h1] at hn
      simp at hn
    · unfold retryJoin at hn ⊢
      rw [if_neg h1] at hn ⊢
      dsimp only at hn ⊢
      rcases lanLoop_success_shape cfg lanEnv _ _ fuel 0 0 n hn
        with ⟨pre, srv, hpre⟩
      constructor
      · rw [countSinkSends_infoJoining,
          lanLoop_sink_outcome cfg lanEnv _ _ fuel 0 0, hn]
        simp
      · exact ⟨Event.logInfoJoining :: pre, srv, by rw [hpre, List.cons_append]⟩
  · intro hn
    by_cases h1 : cfg.RetryJoin.length = 0
    · unfold retryJoin at hn
      rw [if_pos h1] at hn
      simp at hn
    · unfold retryJoin at hn ⊢
      rw [if_neg h1] at hn ⊢
      dsimp only at hn ⊢
      rcases lanLoop_exhausted_shape cfg lanEnv _ _ fuel 0 0 hn with ⟨pre, hpre⟩
      constructor
      · rw [countSinkSends_infoJoining,
          lanLoop_sink_outcome cfg lanEnv _ _ fuel 0 0, hn]
        simp
      · exact ⟨Event.logInfoJoining :: pre, by rw [hpre, List.cons_append]⟩
  · unfold retryJoinWan
    by_cases h2 : cfg.RetryJoinWan.length = 0
    · rw [if_pos h2]
      simp [countSinkSends]
    · rw [if_neg h2]
      dsimp only
      rw [countSinkSends_infoJoiningWan, wanLoop_sink_outcome cfg wanEnv fuel 0 0]
      split <;> simp
  · intro n hn
    by_cases h2 : cfg.RetryJoinWan.length = 0
    · unfold retryJoinWan at hn
      rw [if_pos h2] at hn
      simp at hn
    · unfold retryJoinWan at hn ⊢
      rw [if_neg h2] at hn ⊢
      dsimp only at hn ⊢
      rcases wanLoop_success_shape cfg wanEnv fuel 0 0 n hn with ⟨pre, srv, hpre⟩
      constructor
      · rw [countSinkSends_infoJoiningWan,
          wanLoop_sink_outcome cfg wanEnv fuel 0 0, hn]
        simp
      · exact ⟨Event.logInfoJoiningWan :: pre, srv, by rw [hpre, List.cons_append]⟩
  · intro hn
    by_cases h2 : cfg.RetryJoinWan.length = 0
    · unfold retryJoinWan at hn
      rw [if_pos h2] at hn
      simp at hn
    · unfold retryJoinWan at hn ⊢
      rw [if_neg h2] at hn ⊢
      dsimp only at hn ⊢
      rcases wanLoop_exhausted_shape cfg wanEnv fuel 0 0 hn with ⟨pre, hpre⟩
      constructor
      · rw [countSinkSends_infoJoiningWan,
          wanLoop_sink_outcome cfg wanEnv fuel 0 0, hn]
        simp
      · exact ⟨Event.logInfoJoiningWan :: pre, by rw [hpre, List.cons_append]⟩

/-- Witness for C7: joins that succeed on the first attempt end both runs
with the completion log and no terminal error. -/
theorem terminal_once_and_stop_on_success_witness :
    countSinkSends (retryJoin ⟨["10.0.0.1"], 1, 0, ["10.0.0.2"], 1, 0⟩
        ⟨fun _ => Except.ok [], fun _ _ => Except.ok 3⟩ 2).1 = 0 ∧
    (∃ pre srv, (retryJoin ⟨["10.0.0.1"], 1, 0, ["10.0.0.2"], 1, 0⟩
        ⟨fun _ => Except.ok [], fun _ _ => Except.ok 3⟩ 2).1 =
      pre ++ [Event.joinLANCall srv, Event.logInfoJoinCompleted 3]) ∧
    countSinkSends (retryJoinWan ⟨["10.0.0.1"], 1, 0, ["10.0.0.2"], 1, 0⟩
        ⟨fun _ _ => Except.ok 4⟩ 2).1 = 0 ∧
    (∃ pre srv, (retryJoinWan ⟨["10.0.0.1"], 1, 0, ["10.0.0.2"], 1, 0⟩
        ⟨fun _ _ => Except.ok 4⟩ 2).1 =
      pre ++ [Event.joinWANCall srv, Event.logInfoJoinWanCompleted 4]) := by
  have h := terminal_once_and_stop_on_success
    ⟨["10.0.0.1"], 1, 0, ["10.0.0.2"], 1, 0⟩
    ⟨fun _ => Except.ok [], fun _ _ => Except.ok 3⟩
    ⟨fun _ _ => Except.ok 4⟩ 2
  have hl := h.2.1 3 (by decide)
  have hw := h.2.2.2.2.1 4 (by decide)
  exact ⟨hl.1, hl.2, hw.1, hw.2⟩

/-- C1 as stated is false on the code: with `maxAttempts = 1` and a join
operation failing on every call, the LAN controller performs 2 join
attempts — not exactly 1 — before delivering the single terminal error. -/
theorem retry_bounded_exact_attempts_counterexample :
    countLanJoinCalls (retryJoin ⟨["10.0.0.1"], 1, 1, [], 1, 1⟩
        ⟨fun _ => Except.ok [], fun _ _ => Except.error "refused"⟩ 5).1 = 2 ∧
    ¬ countLanJoinCalls (retryJoin ⟨["10.0.0.1"], 1, 1, [], 1, 1⟩
        ⟨fun _ => Except.ok [], fun _ _ => Except.error "refused"⟩ 5).1 = 1 ∧
    countSinkSends (retryJoin ⟨["10.0.0.1"], 1, 1, [], 1, 1⟩
        ⟨fun _ => Except.ok [], fun _ _ => Except.error "refused"⟩ 5).1 = 1 ∧
    (retryJoin ⟨["10.0.0.1"], 1, 1, [], 1, 1⟩
        ⟨fun _ => Except.ok [], fun _ _ => Except.error "refused"⟩ 5).2 =
      Outcome.exhausted := by
  decide

/-- C1 (amended): with `maxAttempts = N > 0` and a join operation that fails
on every call, the controller performs exactly N+1 join attempts, delivers
exactly one terminal error, and ends exhausted — making no (N+2)-th
attempt, no matter how much longer the run is observed. -/
theorem retry_bounded_exhaustion_amended (N : Nat) (cfg : Config)
    (lanEnv : LanEnv) (wanEnv : WanEnv) (fuel : Nat) (hN : 0 < N)
    (hmaxL : cfg.RetryMaxAttempts = N) (hmaxW : cfg.RetryMaxAttemptsWan = N)
    (haddrs : (splitRetryJoin cfg.RetryJoin).1 ≠ [])
    (hwnn : cfg.RetryJoinWan ≠ [])
    (hfailL : ∀ i s, ∃ e, lanEnv.joinLAN i s = Except.error e)
    (hfailW : ∀ i s, ∃ e, wanEnv.joinWAN i s = Except.error e)
    (hfuel : N + 1 ≤ fuel) :
    countLanJoinCalls (retryJoin cfg lanEnv fuel).1 = N + 1 ∧
    countSinkSends (retryJoin cfg lanEnv fuel).1 = 1 ∧
    (retryJoin cfg lanEnv fuel).2 = Outcome.exhausted ∧
    countWanJoinCalls (retryJoinWan cfg wanEnv fuel).1 = N + 1 ∧
    countSinkSends (retryJoinWan cfg wanEnv fuel).1 = 1 ∧
    (retryJoinWan cfg wanEnv fuel).2 = Outcome.exhausted := by
  have hjnL : ¬ cfg.RetryJoin.length = 0 := by
    intro hlen
    apply haddrs
    rw [List.length_eq_zero.mp hlen]
    rfl
  have hjnW : ¬ cfg.RetryJoinWan.length = 0 := by
    intro hlen
    exact hwnn (List.length_eq_zero.mp hlen)
  have hlan := lanLoop_exhaust_count cfg lanEnv (splitRetryJoin cfg.RetryJoin).1
    (splitRetryJoin cfg.RetryJoin).2 N hmaxL hN haddrs hfailL fuel 0 0
    (Nat.zero_le N) (by omega)
  have hwan := wanLoop_exhaust_count cfg wanEnv N hmaxW hN hfailW fuel 0 0
    (Nat.zero_le N) (by omega)
  unfold retryJoin retryJoinWan
  rw [if_neg hjnL, if_neg hjnW]
  dsimp only
  rw [countLanJoinCalls_infoJoining, countSinkSends_infoJoining,
    countWanJoinCalls_infoJoiningWan, countSinkSends_infoJoiningWan]
  exact ⟨hlan.1, hlan.2.1, hlan.2.2, hwan.1, hwan.2.1, hwan.2.2⟩

/-- Witness for C1 (amended) at `N = 2`: three join attempts, one terminal
error, on both controllers. -/
theorem retry_bounded_exhaustion_amended_witness :
    countLanJoinCalls (retryJoin ⟨["10.0.0.1"], 1, 2, ["10.0.0.2"], 1, 2⟩
        ⟨fun _ => Except.ok [], fun _ _ => Except.error "refused"⟩ 3).1 = 3 ∧
    countSinkSends (retryJoin ⟨["10.0.0.1"], 1, 2, ["10.0.0.2"], 1, 2⟩
        ⟨fun _ => Except.ok [], fun _ _ => Except.error "refused"⟩ 3).1 = 1 ∧
    (retryJoin ⟨["10.0.0.1"], 1, 2, ["10.0.0.2"], 1, 2⟩
        ⟨fun _ => Except.ok [], fun _ _ => Except.error "refused"⟩ 3).2 =
      Outcome.exhausted ∧
    countWanJoinCalls (retryJoinWan ⟨["10.0.0.1"], 1, 2, ["10.0.0.2"], 1, 2⟩
        ⟨fun _ _ => Except.error "refused"⟩ 3).1 = 3 ∧
    countSinkSends (retryJoinWan ⟨["10.0.0.1"], 1, 2, ["10.0.0.2"], 1, 2⟩
        ⟨fun _ _ => Except.error "refused"⟩ 3).1 = 1 ∧
    (retryJoinWan ⟨["10.0.0.1"], 1, 2, ["10.0.0.2"], 1, 2⟩
        ⟨fun _ _ => Except.error "refused"⟩ 3).2 = Outcome.exhausted :=
  retry_bounded_exhaustion_amended 2 ⟨["10.0.0.1"], 1, 2, ["10.0.0.2"], 1, 2⟩
    ⟨fun _ => Except.ok [], fun _ _ => Except.error "refused"⟩
    ⟨fun _ _ => Except.error "refused"⟩ 3 (by decide) rfl rfl (by decide)
    (by decide) (fun _ _ => ⟨"refused", rfl⟩) (fun _ _ => ⟨"refused", rfl⟩)
    (by decide)

end Consul
